import Mathlib

/-!
Verification development for the BauhausWiki server (`src/main.rs`).

The Rust program is shallowly embedded: the in-memory article store
(`HashMap<String, ArticleHistory>` behind a mutex) becomes an association
list that handlers thread explicitly; the system clock (`timestamp()`)
becomes an explicit `Nat` parameter; Rust standard-library string
operations (`split`, `trim`, `lines`, `starts_with`, ...) are re-modelled
as executable Lean functions on `List Char` / `String` with the same
semantics, so that every definition evaluates by `decide` / `rfl`.
-/

/-- Article value (`struct Article`, main.rs lines 8-13).  `timestamp` is a
Unix-seconds value (`u64` in Rust, modelled as `Nat`; no arithmetic in the
program can overflow 64 bits for realistic clock values, and none of the
verified claims depends on wrap-around). -/
structure Article where
  title : String
  content : String
  timestamp : Nat
  deriving DecidableEq, Repr

/-- Version history of one key (`struct ArticleHistory`, lines 16-19). -/
structure ArticleHistory where
  versions : List Article
  deriving DecidableEq, Repr

/-- The shared store (`type WikiData = Arc<Mutex<HashMap<String, ArticleHistory>>>`,
line 22).  The hash map is modelled as an association list; lookup takes the
first matching key (the store built by the program never holds duplicate
keys).  The mutex disappears in the embedding: handlers receive the store and
return the (possibly updated) store. -/
abbrev WikiData := List (String × ArticleHistory)

/-! ## Models of Rust standard-library string operations -/

/-- Model of Rust `str::split(pred)`: splits at every matching character,
keeping empty segments (`"a&&b".split('&') = ["a","","b"]`). -/
def split_pred (p : Char → Bool) : List Char → List (List Char)
  | [] => [[]]
  | x :: xs =>
    let r := split_pred p xs
    if p x then [] :: r
    else
      match r with
      | [] => [[x]]
      | h :: t => (x :: h) :: t

/-- Model of Rust `str::split(c)` for a single separator character. -/
def split_on_char (c : Char) (l : List Char) : List (List Char) :=
  split_pred (fun x => x = c) l

/-- Everything after the first occurrence of character `c`
(used for `path.find('?')` followed by `&path[q+1..]`). -/
def after_char (c : Char) : List Char → Option (List Char)
  | [] => none
  | x :: rest => if x = c then some rest else after_char c rest

/-- Everything after the first occurrence of the substring `pat`
(used for `request.find("\r\n\r\n")` followed by `&request[pos+4..]`). -/
def after_sub (pat : List Char) : List Char → Option (List Char)
  | [] => if pat = [] then some [] else none
  | x :: rest =>
    if pat.isPrefixOf (x :: rest) then some ((x :: rest).drop pat.length)
    else after_sub pat rest

/-- Model of Rust `str::starts_with(prefix)`. -/
def starts_with (s p : String) : Bool :=
  p.toList.isPrefixOf s.toList

/-- Model of Rust `str::contains(sub)` (substring containment). -/
def contains_sub (s sub : String) : Bool :=
  (after_sub sub.toList s.toList).isSome

/-- Model of Rust `str::trim` (strip leading and trailing whitespace). -/
def rust_trim (s : String) : String :=
  String.mk (((s.toList.dropWhile Char.isWhitespace).reverse.dropWhile
      Char.isWhitespace).reverse)

/-- Strip a single trailing `'\r'` (the way Rust `str::lines` treats
`"\r\n"` line endings). -/
def strip_cr (s : String) : String :=
  match s.toList.getLast? with
  | some c => if c = '\r' then String.mk s.toList.dropLast else s
  | none => s

/-- Model of Rust `str::lines`: split at `'\n'`, drop one final empty
segment produced by a trailing newline, strip a trailing `'\r'` from each
line; the empty string yields no lines. -/
def rust_lines (s : String) : List String :=
  if s = "" then []
  else
    let parts := (split_on_char '\n' s.toList).map String.mk
    let parts := if parts.getLast? = some "" then parts.dropLast else parts
    parts.map strip_cr

/-- Model of Rust `str::split_whitespace`: split at whitespace, dropping
empty segments. -/
def split_whitespace (s : String) : List String :=
  ((split_pred Char.isWhitespace s.toList).map String.mk).filter
    (fun w => w ≠ "")

/-- Model of Rust `str::to_lowercase` (character-wise; identical on the
ASCII data this program handles). -/
def to_lowercase (s : String) : String :=
  String.mk (s.toList.map Char.toLower)

/-- Model of Rust `str::replace(c, r)` for a one-character pattern: every
occurrence of the character `c` is replaced by the string `r`. -/
def replace_char (s : String) (c : Char) (r : String) : String :=
  String.join (s.toList.map (fun x => if x = c then r else String.singleton x))

/-- Concatenation of a list of strings (used to state rendering theorems). -/
def str_concat : List String → String
  | [] => ""
  | s :: rest => s ++ str_concat rest

/-- Model of Rust format width specifier `{:0w}`: left-pad with zeros to
width `w` (used by `format_timestamp`). -/
def zero_pad (w : Nat) (s : String) : String :=
  if s.length < w then String.mk (List.replicate (w - s.length) '0') ++ s
  else s

/-! ## Text decoder and HTML escaping -/

/-- The `escape_html` function (lines 790-796): five sequential
`str::replace` passes.  Each pattern is a single character, so each pass is
`replace_char`. -/
def escape_html (s : String) : String :=
  replace_char (replace_char (replace_char (replace_char (replace_char
    s '&' "&amp;") '<' "&lt;") '>' "&gt;") '"' "&quot;") '\x27' "&#39;"

/-- Value of a hexadecimal digit character, `none` for non-digits
(model of the per-digit step of `u8::from_str_radix(_, 16)`). -/
def hex_digit_val (c : Char) : Option Nat :=
  if '0' ≤ c ∧ c ≤ '9' then some (c.toNat - '0'.toNat)
  else if 'a' ≤ c ∧ c ≤ 'f' then some (c.toNat - 'a'.toNat + 10)
  else if 'A' ≤ c ∧ c ≤ 'F' then some (c.toNat - 'A'.toNat + 10)
  else none

/-- Model of `u8::from_str_radix(s, 16)` applied to the exact two-character
string the decoder builds: an optional leading `'+'` sign is accepted (as in
Rust; `'-'` is rejected for unsigned types), otherwise both characters must
be hex digits.  Two hex digits fit in a `u8`, so overflow cannot occur. -/
def from_str_radix2 (c1 c2 : Char) : Option Nat :=
  if c1 = '+' then hex_digit_val c2
  else
    match hex_digit_val c1, hex_digit_val c2 with
    | some a, some b => some (16 * a + b)
    | _, _ => none

/-- Push the parsed byte as a character (`result.push(byte as char)`), or
nothing when the parse failed (`if let Ok(byte) = ...`). -/
def push_byte (b? : Option Nat) (rest : List Char) : List Char :=
  match b? with
  | some b => Char.ofNat b :: rest
  | none => rest

/-- Character-level body of `urldecode` (lines 770-788): `'+'` becomes a
space; `'%'` consumes the next two characters unconditionally, missing
characters defaulting to `'0'`, and pushes the parsed byte (or nothing when
the two characters do not parse); every other character passes through. -/
def urldecode_list : List Char → List Char
  | [] => []
  | '+' :: rest => ' ' :: urldecode_list rest
  | ['%'] => push_byte (from_str_radix2 '0' '0') []
  | ['%', c1] => push_byte (from_str_radix2 c1 '0') []
  | '%' :: c1 :: c2 :: rest => push_byte (from_str_radix2 c1 c2) (urldecode_list rest)
  | c :: rest => c :: urldecode_list rest

/-- The `urldecode` function (lines 770-788). -/
def urldecode (s : String) : String :=
  String.mk (urldecode_list s.toList)

/-! ## Article store -/

/-- Lookup in the association-list store (model of `HashMap::get`). -/
def store_get : WikiData → String → Option ArticleHistory
  | [], _ => none
  | kv :: rest, name => if kv.1 = name then some kv.2 else store_get rest name

/-- Title derivation performed inside `save_article` (lines 370-379):
replace underscores by spaces, split on whitespace, capitalize the first
character of each word (`char::to_uppercase`; one character on the ASCII
keys this program handles), join with single spaces. -/
def capitalize_word (w : String) : String :=
  match w.toList with
  | [] => ""
  | f :: rest => String.mk (f.toUpper :: rest)

/-- Display title derived from an article key (the `title` computation in
`save_article`, lines 370-379). -/
def derive_title (name : String) : String :=
  String.intercalate " "
    ((split_whitespace (replace_char name '_' " ")).map capitalize_word)

/-- Closure pushed over the store entry by `save_article` (lines 387-390):
append the new article to the history of the entry for `name`, leave every
other entry unchanged. -/
def push_version (name : String) (article : Article)
    (kv : String × ArticleHistory) : String × ArticleHistory :=
  if kv.1 = name then (kv.1, ⟨kv.2.versions ++ [article]⟩) else kv

/-- The `save_article` function (lines 368-391).  `ts` is the value of
`timestamp()` at the moment of the call.  `entry(...).or_insert_with(empty
history).versions.push(article)` becomes: update the existing entry in
place (`push_version`), or append a fresh singleton entry when the key is
absent. -/
def save_article (name content : String) (ts : Nat) (store : WikiData) :
    WikiData :=
  if (store_get store name).isSome then
    store.map (push_version name ⟨derive_title name, content, ts⟩)
  else
    store ++ [(name, ⟨[⟨derive_title name, content, ts⟩]⟩)]

/-- The store contract `get_latest` (spec section 4.1): the pattern
`data.get(name)` followed by `history.versions.last()` used by
`view_article` (lines 147-149). -/
def get_latest (store : WikiData) (name : String) : Option Article :=
  (store_get store name).bind (fun h => h.versions.getLast?)

/-- Fallback article used to totalize `versions.last().unwrap()`; the
reachability invariant (nonempty histories) proves the fallback is never
taken on stores the program can build. -/
def dummy_article : Article := { title := "", content := "", timestamp := 0 }

/-! ## Markup renderer -/

/-- Hypertext emitted for one `[[Name]]` cross-reference (line 446):
`format!(r#"<a href="/wiki/{}" class="wiki-link">{}</a>"#, link_url,
escape_html(&link))` with `link_url = link.to_lowercase().replace(" ", "_")`. -/
def link_html (link : String) : String :=
  "<a href=\"/wiki/" ++ replace_char (to_lowercase link) ' ' "_" ++
    "\" class=\"wiki-link\">" ++ escape_html link ++ "</a>"

/-- Single pass of `process_links` (lines 434-457) as a state machine over
the character stream.  State `none`: outside a link; `some link`: inside a
`[[`-scan holding the collected name.  `'['` followed by `'['` enters the
scan; `']'` followed by `']'` emits the link and leaves it; end of input
inside a scan discards the collected name silently (the Rust inner `while`
exhausts the shared iterator and the outer loop then terminates). -/
def pl_aux : List Char → Option String → List Char
  | [], _ => []
  | '[' :: '[' :: rest2, none => pl_aux rest2 (some "")
  | c :: rest, none => c :: pl_aux rest none
  | ']' :: ']' :: rest2, some link => (link_html link).toList ++ pl_aux rest2 none
  | c :: rest, some link => pl_aux rest (some (link.push c))

/-- The `process_links` function (lines 434-457). -/
def process_links (text : String) : String :=
  String.mk (pl_aux text.toList none)

/-- Loop body of `markdown_to_html` (lines 398-424) for a single input
line, acting on the state (accumulated output, `in_paragraph` flag). -/
def md_step (st : String × Bool) (line : String) : String × Bool :=
  let trimmed := rust_trim line
  if trimmed = "" then
    (if st.2 then st.1 ++ "</p>\n" else st.1, false)
  else if starts_with trimmed "# " then
    ((if st.2 then st.1 ++ "</p>\n" else st.1) ++ "<h2>" ++
      escape_html (String.mk (trimmed.toList.drop 2)) ++ "</h2>\n", false)
  else if starts_with trimmed "- " then
    ((if st.2 then st.1 ++ "</p>\n" else st.1) ++ "<ul><li>" ++
      process_links (String.mk (trimmed.toList.drop 2)) ++ "</li></ul>\n", false)
  else if st.2 then
    (st.1 ++ " " ++ process_links trimmed, true)
  else
    (st.1 ++ "<p>" ++ process_links trimmed, true)

/-- The `markdown_to_html` function (lines 394-431): fold the line step
over `content.lines()`, closing a still-open paragraph at the end. -/
def markdown_to_html (content : String) : String :=
  let r := (rust_lines content).foldl md_step ("", false)
  if r.2 then r.1 ++ "</p>\n" else r.1

/-! ## Response framing -/

/-- The `http_response` function (lines 716-718). -/
def http_response (code : Nat) (message : String) : String :=
  "HTTP/1.1 " ++ Nat.repr code ++ " " ++ message ++ "\r\n\r\n" ++ message

/-- The `html_response` function (lines 721-726). -/
def html_response (body : String) : String :=
  "HTTP/1.1 200 OK\r\nContent-Type: text/html; charset=UTF-8\r\n\r\n" ++ body

/-- The `redirect_response` function (lines 729-734). -/
def redirect_response (location : String) : String :=
  "HTTP/1.1 303 See Other\r\nLocation: " ++ location ++ "\r\n\r\n"

/-- The `format_timestamp` function (lines 805-812), including its
simplified calendar (365-day years, 30-day months). -/
def format_timestamp (ts : Nat) : String :=
  let days := ts / 86400
  let years := days / 365 + 1970
  let remaining_days := days % 365
  let month := remaining_days / 30 + 1
  let day := remaining_days % 30 + 1
  zero_pad 4 (Nat.repr years) ++ "-" ++ zero_pad 2 (Nat.repr month) ++ "-" ++
    zero_pad 2 (Nat.repr day)

/-! ## Page templates (the `format!` literals of the handlers, transcribed verbatim; `\x7b`, `\x7d`, `\x27` stand for the brace and apostrophe characters) -/

/-- Found-article page of `view_article` (lines 151-189). -/
def view_found_page (title : String) (name : String) (html_content : String) : String :=
  "<!DOCTYPE html>\n<html>\n<head>\n    <meta charset=\"UTF-8\">\n    <title>" ++ title ++ " - BauhausWiki</title>\n    <link rel=\"stylesheet\" href=\"/styles.css\">\n</head>\n<body>\n    <header>\n        <h1><a href=\"/\">BauhausWiki</a></h1>\n        <nav>\n            <form action=\"/search\" method=\"get\" class=\"search-form\">\n                <input type=\"text\" name=\"q\" placeholder=\"Search...\" class=\"search-input\">\n                <button type=\"submit\" class=\"primary-btn\">Search</button>\n            </form>\n        </nav>\n    </header>\n    <main>\n        <article>\n            <div class=\"article-header\">\n                <h2>" ++ title ++ "</h2>\n                <div class=\"article-actions\">\n                    <a href=\"/edit/" ++ name ++ "\" class=\"btn\">Edit</a>\n                    <a href=\"/history/" ++ name ++ "\" class=\"btn\">History</a>\n                </div>\n            </div>\n            <div class=\"article-content\">\n                " ++ html_content ++ "\n            </div>\n        </article>\n    </main>\n    <footer>\n        <p>2025 OttoCompiler</p>\n    </footer>\n</body>\n</html>"

/-- Not-found page of `view_article` (lines 191-216). -/
def view_notfound_page (name : String) : String :=
  "<!DOCTYPE html>\n<html>\n<head>\n    <meta charset=\"UTF-8\">\n    <title>Article Not Found - BauhausWiki</title>\n    <link rel=\"stylesheet\" href=\"/styles.css\">\n</head>\n<body>\n    <header>\n        <h1><a href=\"/\">BauhausWiki</a></h1>\n    </header>\n    <main>\n        <div class=\"not-found\">\n            <h2>Article Not Found: " ++ name ++ "</h2>\n            <p>This article does not exist yet.</p>\n            <a href=\"/edit/" ++ name ++ "\" class=\"primary-btn\">Create Article</a>\n            <a href=\"/\" class=\"btn\">Back to Main Page</a>\n        </div>\n    </main>\n</body>\n</html>"

/-- Edit-form page of `edit_page` (lines 228-263). -/
def edit_page_tpl (name : String) (econtent : String) : String :=
  "<!DOCTYPE html>\n<html>\n<head>\n    <meta charset=\"UTF-8\">\n    <title>Edit " ++ name ++ " - BauhausWiki</title>\n    <link rel=\"stylesheet\" href=\"/styles.css\">\n</head>\n<body>\n    <header>\n        <h1><a href=\"/\">BauhausWiki</a></h1>\n    </header>\n    <main>\n        <article>\n            <h2>Editing: " ++ name ++ "</h2>\n            <form action=\"/save/" ++ name ++ "\" method=\"post\" class=\"edit-form\">\n                <textarea name=\"content\" rows=\"20\" class=\"edit-textarea\">" ++ econtent ++ "</textarea>\n                <div class=\"form-actions\">\n                    <button type=\"submit\" class=\"primary-btn\">Save Article</button>\n                    <a href=\"/wiki/" ++ name ++ "\" class=\"btn\">Cancel</a>\n                </div>\n            </form>\n            <div class=\"help-box\">\n                <h3>Formatting Help</h3>\n                <ul>\n                    <li>[[Link]] - Create internal links</li>\n                    <li>Paragraphs separated by blank lines</li>\n                    <li>Simple markdown supported</li>\n                </ul>\n            </div>\n        </article>\n    </main>\n</body>\n</html>"

/-- Per-version block of `history_page` (lines 275-284). -/
def history_item_html_tpl (num : String) (date : String) (preview : String) : String :=
  "<div class=\"history-item\">\n                        <div class=\"history-number\">Version " ++ num ++ "</div>\n                        <div class=\"history-date\">" ++ date ++ "</div>\n                        <div class=\"history-preview\">" ++ preview ++ "</div>\n                    </div>"

/-- History page of `history_page` (lines 287-311). -/
def history_page_tpl (name : String) (vh : String) : String :=
  "<!DOCTYPE html>\n<html>\n<head>\n    <meta charset=\"UTF-8\">\n    <title>History: " ++ name ++ " - BauhausWiki</title>\n    <link rel=\"stylesheet\" href=\"/styles.css\">\n</head>\n<body>\n    <header>\n        <h1><a href=\"/\">BauhausWiki</a></h1>\n    </header>\n    <main>\n        <article>\n            <h2>Revision History: " ++ name ++ "</h2>\n            <div class=\"history-list\">\n                " ++ vh ++ "\n            </div>\n            <a href=\"/wiki/" ++ name ++ "\" class=\"btn\">Back to Article</a>\n        </article>\n    </main>\n</body>\n</html>"

/-- Search-results page of `search_page` (lines 340-364). -/
def search_page_tpl (query : String) (equery : String) (results_html : String) : String :=
  "<!DOCTYPE html>\n<html>\n<head>\n    <meta charset=\"UTF-8\">\n    <title>Search: " ++ query ++ " - BauhausWiki</title>\n    <link rel=\"stylesheet\" href=\"/styles.css\">\n</head>\n<body>\n    <header>\n        <h1><a href=\"/\">BauhausWiki</a></h1>\n    </header>\n    <main>\n        <article>\n            <h2>Search Results for: " ++ equery ++ "</h2>\n            <div class=\"search-results\">\n                " ++ results_html ++ "\n            </div>\n            <a href=\"/\" class=\"btn\">Back to Main Page</a>\n        </article>\n    </main>\n</body>\n</html>"

/-- Stylesheet text served by `css_response` (lines 460-713). -/
def css_body : String :=
  "* \x7b\n    margin: 0;\n    padding: 0;\n    box-sizing: border-box;\n\x7d\n\nbody \x7b\n    font-family: \x27Helvetica Neue\x27, Arial, sans-serif;\n    background: #ffffff;\n    color: #000000;\n    line-height: 1.6;\n\x7d\n\nheader \x7b\n    background: #000000;\n    color: #ffffff;\n    padding: 1.5rem 2rem;\n    display: flex;\n    justify-content: space-between;\n    align-items: center;\n    border-bottom: 4px solid #ff0000;\n\x7d\n\nheader h1 \x7b\n    font-size: 1.8rem;\n    font-weight: 700;\n    letter-spacing: -1px;\n\x7d\n\nheader h1 a \x7b\n    color: #ffffff;\n    text-decoration: none;\n\x7d\n\nnav \x7b\n    display: flex;\n    gap: 1rem;\n    align-items: center;\n\x7d\n\n.search-form \x7b\n    display: flex;\n    gap: 0.5rem;\n\x7d\n\n.search-input \x7b\n    padding: 0.5rem 1rem;\n    border: 2px solid #ffffff;\n    background: #000000;\n    color: #ffffff;\n    font-size: 1rem;\n\x7d\n\nmain \x7b\n    max-width: 900px;\n    margin: 2rem auto;\n    padding: 0 2rem;\n\x7d\n\narticle \x7b\n    background: #ffffff;\n    border: 2px solid #000000;\n    padding: 2rem;\n\x7d\n\n.article-header \x7b\n    display: flex;\n    justify-content: space-between;\n    align-items: center;\n    margin-bottom: 2rem;\n    padding-bottom: 1rem;\n    border-bottom: 2px solid #000000;\n\x7d\n\n.article-header h2 \x7b\n    font-size: 2rem;\n    font-weight: 700;\n\x7d\n\n.article-actions \x7b\n    display: flex;\n    gap: 0.5rem;\n\x7d\n\n.article-content \x7b\n    font-size: 1.1rem;\n\x7d\n\n.article-content h2 \x7b\n    font-size: 1.5rem;\n    margin: 1.5rem 0 1rem 0;\n    font-weight: 700;\n\x7d\n\n.article-content p \x7b\n    margin-bottom: 1rem;\n\x7d\n\n.article-content ul \x7b\n    margin-left: 2rem;\n    margin-bottom: 1rem;\n\x7d\n\n.wiki-link \x7b\n    color: #0000ff;\n    text-decoration: none;\n    font-weight: 500;\n    border-bottom: 1px solid #0000ff;\n\x7d\n\n.wiki-link:hover \x7b\n    background: #ffff00;\n    border-bottom: 2px solid #0000ff;\n\x7d\n\n.btn, .primary-btn \x7b\n    padding: 0.5rem 1.5rem;\n    text-decoration: none;\n    font-weight: 600;\n    display: inline-block;\n    cursor: pointer;\n    border: 2px solid #000000;\n    background: #ffffff;\n    color: #000000;\n    font-size: 1rem;\n\x7d\n\n.btn:hover \x7b\n    background: #ffff00;\n\x7d\n\n.primary-btn \x7b\n    background: #ff0000;\n    color: #ffffff;\n    border-color: #ff0000;\n\x7d\n\n.primary-btn:hover \x7b\n    background: #cc0000;\n\x7d\n\n.edit-form \x7b\n    margin-bottom: 2rem;\n\x7d\n\n.edit-textarea \x7b\n    width: 100%;\n    padding: 1rem;\n    font-family: \x27Courier New\x27, monospace;\n    font-size: 1rem;\n    border: 2px solid #000000;\n    resize: vertical;\n\x7d\n\n.form-actions \x7b\n    margin-top: 1rem;\n    display: flex;\n    gap: 0.5rem;\n\x7d\n\n.help-box \x7b\n    background: #f5f5f5;\n    border: 2px solid #000000;\n    padding: 1rem;\n    margin-top: 2rem;\n\x7d\n\n.help-box h3 \x7b\n    margin-bottom: 0.5rem;\n    font-size: 1.2rem;\n\x7d\n\n.help-box ul \x7b\n    list-style-position: inside;\n\x7d\n\n.not-found \x7b\n    text-align: center;\n    padding: 3rem 0;\n\x7d\n\n.not-found h2 \x7b\n    font-size: 2rem;\n    margin-bottom: 1rem;\n\x7d\n\n.not-found p \x7b\n    margin-bottom: 2rem;\n    font-size: 1.1rem;\n\x7d\n\n.history-list \x7b\n    margin: 2rem 0;\n\x7d\n\n.history-item \x7b\n    padding: 1rem;\n    border: 2px solid #000000;\n    margin-bottom: 1rem;\n    background: #f5f5f5;\n\x7d\n\n.history-number \x7b\n    font-weight: 700;\n    font-size: 1.2rem;\n    margin-bottom: 0.5rem;\n\x7d\n\n.history-date \x7b\n    color: #666666;\n    margin-bottom: 0.5rem;\n\x7d\n\n.history-preview \x7b\n    font-family: \x27Courier New\x27, monospace;\n    font-size: 0.9rem;\n\x7d\n\n.search-results \x7b\n    margin: 2rem 0;\n\x7d\n\n.search-result \x7b\n    padding: 1rem;\n    border: 2px solid #000000;\n    margin-bottom: 1rem;\n    background: #ffffff;\n\x7d\n\n.search-result a \x7b\n    font-size: 1.2rem;\n    color: #0000ff;\n    text-decoration: none;\n    font-weight: 600;\n\x7d\n\n.search-result a:hover \x7b\n    text-decoration: underline;\n\x7d\n\nfooter \x7b\n    text-align: center;\n    padding: 2rem;\n    background: #000000;\n    color: #ffffff;\n    margin-top: 4rem;\n    border-top: 4px solid #ff0000;\n\x7d\n"

/-- Seed content of the "main" article (line 33). -/
def main_seed_content : String :=
  "Welcome to BauhausWiki\n\nA minimalist encyclopedia inspired by Bauhaus design principles.\n\nFeatured Articles:\n- [[Bauhaus]]\n- [[Design]]\n- [[Architecture]]\n\nStart exploring or create a new article."

/-- Seed content of the "bauhaus" article (line 41). -/
def bauhaus_seed_content : String :=
  "The Bauhaus\n\nThe Bauhaus was a German art school operational from 1919 to 1933 that combined crafts and the fine arts.\n\nKey Principles:\n- Form follows function\n- Unity of art and technology\n- Geometric abstraction\n- Primary colors and shapes\n\nThe Bauhaus style is characterized by geometric forms, clean lines, and a focus on functionality. It influenced [[Architecture]] and [[Design]] worldwide."

/-! ## Handlers -/

/-- The `view_article` function (lines 144-218).  The Rust
`history.versions.last().unwrap()` is totalized with `dummy_article`; the
reachability invariant proved below shows every history in a program-built
store is non-empty, so the fallback is never taken. -/
def view_article (name : String) (store : WikiData) : String :=
  match store_get store name with
  | some history =>
    let article := history.versions.getLastD dummy_article
    html_response (view_found_page article.title name
      (markdown_to_html article.content))
  | none => html_response (view_notfound_page name)

/-- The `edit_page` function (lines 221-264), with the same totalization of
`last().unwrap()`. -/
def edit_page (name : String) (store : WikiData) : String :=
  let content :=
    match store_get store name with
    | some history => (history.versions.getLastD dummy_article).content
    | none => ""
  html_response (edit_page_tpl name (escape_html content))

/-- One rendered block of the history list (lines 275-284): version number
`i + 1`, formatted date, first 100 characters of the content, escaped. -/
def history_item_html (num : Nat) (date preview : String) : String :=
  history_item_html_tpl (Nat.repr num) date preview

/-- Accumulated `versions_html` string of `history_page` (lines 272-285):
a fold over `versions.iter().enumerate().rev()`, newest version first. -/
def versions_html (vs : List Article) : String :=
  (vs.enum.reverse).foldl
    (fun acc p =>
      acc ++ history_item_html (p.1 + 1) (format_timestamp p.2.timestamp)
        (escape_html (String.mk (p.2.content.toList.take 100)))) ""

/-- The `history_page` function (lines 267-315): render all versions when
the key exists, redirect to the article page when it does not. -/
def history_page (name : String) (store : WikiData) : String :=
  match store_get store name with
  | some history =>
    html_response (history_page_tpl name (versions_html history.versions))
  | none => redirect_response ("/wiki/" ++ name)

/-- The `search_page` function (lines 318-365).  Iteration order of the
Rust `HashMap` is unspecified; the model iterates the association list in
order, which is deterministic for a fixed store state (all the claims
verified here are insensitive to this order). -/
def search_page (query : String) (store : WikiData) : String :=
  let query_lower := to_lowercase query
  let results := store.filterMap (fun kv =>
    let article := kv.2.versions.getLastD dummy_article
    if contains_sub (to_lowercase article.title) query_lower ||
        contains_sub (to_lowercase article.content) query_lower then
      some (kv.1, article.title)
    else none)
  let results_html :=
    if results = [] then "<p>No articles found.</p>"
    else
      String.intercalate "\n" (results.map (fun r =>
        "<div class=\"search-result\"><a href=\"/wiki/" ++ r.1 ++ "\">" ++
          r.2 ++ "</a></div>"))
  html_response (search_page_tpl query (escape_html query) results_html)

/-- The `css_response` function (lines 460-713). -/
def css_response : String :=
  "HTTP/1.1 200 OK\r\nContent-Type: text/css\r\n\r\n" ++ css_body

/-! ## Router and parameter extraction -/

/-- Shared loop of `extract_query_param` (lines 740-745) and
`extract_form_param` (lines 760-765): first pair that splits on `'='` into
exactly two tokens whose first token equals `param` wins; its second token
is url-decoded; otherwise the empty string. -/
def find_param : List (List Char) → String → String
  | [], _ => ""
  | p :: rest, param =>
    let parts := split_on_char '=' p
    if parts.length = 2 ∧ String.mk (parts.headD []) = param then
      urldecode (String.mk (parts.getD 1 []))
    else find_param rest param

/-- The `extract_query_param` function (lines 737-748): text after the
first `'?'`, split on `'&'`, scanned by `find_param`. -/
def extract_query_param (path param : String) : String :=
  match after_char '?' path.toList with
  | some q => find_param (split_on_char '&' q) param
  | none => ""

/-- The `extract_body` function (lines 751-756): everything after the
first `"\r\n\r\n"`, or empty when the separator is absent. -/
def extract_body (request : String) : String :=
  match after_sub "\r\n\r\n".toList request.toList with
  | some l => String.mk l
  | none => ""

/-- The `extract_form_param` function (lines 759-767). -/
def extract_form_param (body param : String) : String :=
  find_param (split_on_char '&' body.toList) param

/-- Dispatch of `handle_get` (lines 103-127) on an already-aliased path:
prefix match on `/wiki/`, `/edit/`, `/history/`, `/search`, exact match on
`/styles.css`, otherwise 404. -/
def handle_get_routed (path : String) (store : WikiData) : String :=
  if starts_with path "/wiki/" then
    view_article (String.mk (path.toList.drop 6)) store
  else if starts_with path "/edit/" then
    edit_page (String.mk (path.toList.drop 6)) store
  else if starts_with path "/history/" then
    history_page (String.mk (path.toList.drop 9)) store
  else if starts_with path "/search" then
    search_page (extract_query_param path "q") store
  else if path = "/styles.css" then css_response
  else http_response 404 "Not Found"

/-- The `handle_get` function (lines 98-128).  The Rust function recurses
once on `"/"` (alias for `/wiki/main`, line 99-101); since `"/wiki/main"`
is not `"/"`, the recursion takes exactly one step and is unfolded here. -/
def handle_get (path : String) (store : WikiData) : String :=
  if path = "/" then handle_get_routed "/wiki/main" store
  else handle_get_routed path store

/-- The `handle_post` function (lines 131-141).  Returns the response
together with the updated store (the Rust function mutates the shared map
through the mutex); `ts` is the save-time clock value. -/
def handle_post (path request : String) (store : WikiData) (ts : Nat) :
    String × WikiData :=
  if starts_with path "/save/" then
    let article_name := String.mk (path.toList.drop 6)
    let body := extract_body request
    let content := extract_form_param body "content"
    (redirect_response ("/wiki/" ++ article_name),
      save_article article_name content ts store)
  else (http_response 404 "Not Found", store)

/-- The `process_request` function (lines 76-95): parse the request line,
reject requests with no lines or fewer than two whitespace-separated
tokens with 400, dispatch GET and POST, answer anything else with 405. -/
def process_request (request : String) (store : WikiData) (ts : Nat) :
    String × WikiData :=
  let lines := rust_lines request
  if lines = [] then (http_response 400 "Bad Request", store)
  else
    let parts := split_whitespace (lines.headD "")
    if parts.length < 2 then (http_response 400 "Bad Request", store)
    else
      let method := parts.headD ""
      let path := parts.getD 1 ""
      if method = "GET" then (handle_get path store, store)
      else if method = "POST" then handle_post path request store ts
      else (http_response 405 "Method Not Allowed", store)

/-! ## Startup state and reachable stores -/

/-- The store built by `main` before listening (lines 26-45): two seed
entries, each with a one-element history.  `t0` and `t1` are the two
`timestamp()` readings taken during startup. -/
def seed_store (t0 t1 : Nat) : WikiData :=
  [("main", ⟨[⟨"Main Page", main_seed_content, t0⟩]⟩),
   ("bauhaus", ⟨[⟨"Bauhaus", bauhaus_seed_content, t1⟩]⟩)]

/-- Stores the running program can exhibit: the seed store, mutated by any
sequence of `save_article` calls (the only operation that writes the map;
each call runs entirely under the mutex, lines 368-391). -/
inductive Reachable : WikiData → Prop where
  | seed : ∀ t0 t1 : Nat, Reachable (seed_store t0 t1)
  | save : ∀ (s : WikiData) (k c : String) (t : Nat),
      Reachable s → Reachable (save_article k c t s)

/-! ## Lock-scope event traces

Rust `MutexGuard`s live until the end of their lexical scope.  Each trace
below lists, in source order, the store/lock events of one handler: when
the guard is taken, when the map is read, when markup rendering and
response-string construction happen, when the guard is dropped, and (for
the full connection handler) when the response bytes are written to the
socket. -/

/-- Events of interest for the lock-scope analysis. -/
inductive StoreEvent where
  | lockAcquire
  | mapAccess
  | render
  | lockRelease
  | writeBytes
  deriving DecidableEq, BEq, Repr

/-- Event trace of `view_article` (lines 144-218): the guard is taken at
line 145 (`let data = wiki_data.lock().unwrap()`), the map is read at line
147 (`data.get(name)`), `markdown_to_html` and the `html_response` string
are built at lines 150-215 inside the guard's scope (they read `article`,
a reference into the guarded map), and the guard drops at the end of the
function (line 218). -/
def view_article_trace : List StoreEvent :=
  [StoreEvent.lockAcquire, StoreEvent.mapAccess, StoreEvent.render,
    StoreEvent.lockRelease]

/-- Event trace of `search_page` (lines 318-365): guard taken at line 319,
map iterated at lines 323-329, `results_html` and the response string
built at lines 331-364 inside the guard's scope, guard dropped at the end
of the function (line 365). -/
def search_page_trace : List StoreEvent :=
  [StoreEvent.lockAcquire, StoreEvent.mapAccess, StoreEvent.render,
    StoreEvent.lockRelease]

/-- Event trace of `handle_client` (lines 62-73) for a `/wiki/` GET: the
handler's trace followed by `stream.write_all` at line 68, which runs
after `process_request` has returned and the guard has been dropped. -/
def handle_client_view_trace : List StoreEvent :=
  view_article_trace ++ [StoreEvent.writeBytes]

/-- Event trace of `handle_client` for a `/search` GET. -/
def handle_client_search_trace : List StoreEvent :=
  search_page_trace ++ [StoreEvent.writeBytes]


/-! ## Store lemmas -/

/-- Unfolding lemma for `store_get` on a cons cell. -/
theorem store_get_cons (kv : String × ArticleHistory) (rest : WikiData)
    (name : String) :
    store_get (kv :: rest) name =
      if kv.1 = name then some kv.2 else store_get rest name := rfl

/-- The pushed entry keeps its key. -/
theorem push_version_fst (name : String) (a : Article)
    (kv : String × ArticleHistory) : (push_version name a kv).1 = kv.1 := by
  unfold push_version
  split <;> rfl

/-- On the matching entry, `push_version` appends the article. -/
theorem push_version_snd_eq (name : String) (a : Article)
    (kv : String × ArticleHistory) (h : kv.1 = name) :
    (push_version name a kv).2 = ⟨kv.2.versions ++ [a]⟩ := by
  unfold push_version
  rw [if_pos h]

/-- On every other entry, `push_version` is the identity. -/
theorem push_version_ne (name : String) (a : Article)
    (kv : String × ArticleHistory) (h : ¬kv.1 = name) :
    push_version name a kv = kv := by
  unfold push_version
  rw [if_neg h]

/-- Mapping `push_version` changes the looked-up history for the saved key
by appending the article. -/
theorem store_get_map_push (s : WikiData) (name : String) (a : Article) :
    store_get (s.map (push_version name a)) name =
      (store_get s name).map (fun h => ⟨h.versions ++ [a]⟩) := by
  induction s with
  | nil => rfl
  | cons kv rest ih =>
    rw [List.map_cons, store_get_cons, store_get_cons, push_version_fst]
    by_cases hk : kv.1 = name
    · rw [if_pos hk, if_pos hk, push_version_snd_eq _ _ _ hk]
      rfl
    · rw [if_neg hk, if_neg hk, ih]

/-- Mapping `push_version` leaves every other key's lookup unchanged. -/
theorem store_get_map_push_ne (s : WikiData) (name : String) (a : Article)
    (k : String) (hk : k ≠ name) :
    store_get (s.map (push_version name a)) k = store_get s k := by
  induction s with
  | nil => rfl
  | cons kv rest ih =>
    rw [List.map_cons, store_get_cons, store_get_cons, push_version_fst]
    by_cases h1 : kv.1 = k
    · rw [if_pos h1, if_pos h1,
        push_version_ne _ _ _ (fun e => hk (by rw [← h1]; exact e))]
    · rw [if_neg h1, if_neg h1, ih]

/-- Appending entries cannot shadow a key that is absent on the left. -/
theorem store_get_append_right (s l : WikiData) (k : String)
    (h : store_get s k = none) : store_get (s ++ l) k = store_get l k := by
  induction s with
  | nil => rfl
  | cons kv rest ih =>
    rw [store_get_cons] at h
    rw [List.cons_append, store_get_cons]
    by_cases hk : kv.1 = k
    · rw [if_pos hk] at h
      exact absurd h (by simp)
    · rw [if_neg hk] at h ⊢
      exact ih h

/-- Appending a differently-keyed entry does not change a lookup. -/
theorem store_get_append_single_ne (s : WikiData) (name k : String)
    (x : ArticleHistory) (h : k ≠ name) :
    store_get (s ++ [(name, x)]) k = store_get s k := by
  induction s with
  | nil =>
    show store_get [(name, x)] k = none
    rw [store_get_cons, if_neg (fun e => h e.symm)]
    rfl
  | cons kv rest ih =>
    rw [List.cons_append, store_get_cons, store_get_cons]
    by_cases hk : kv.1 = k
    · rw [if_pos hk, if_pos hk]
    · rw [if_neg hk, if_neg hk, ih]

/-- Effect of `save_article` on the saved key: the history (empty when the
key was absent) grows by exactly the one new article, appended at the end. -/
theorem store_get_save_self (name content : String) (ts : Nat)
    (store : WikiData) :
    store_get (save_article name content ts store) name =
      some ⟨((store_get store name).map ArticleHistory.versions).getD [] ++
        [⟨derive_title name, content, ts⟩]⟩ := by
  unfold save_article
  cases h : store_get store name with
  | none =>
    rw [if_neg (by simp)]
    rw [store_get_append_right _ _ _ h, store_get_cons]
    simp
  | some hist =>
    rw [if_pos (by simp)]
    rw [store_get_map_push, h]
    rfl

/-- Effect of `save_article` on every other key: unchanged. -/
theorem store_get_save_other (name content : String) (ts : Nat)
    (store : WikiData) (k : String) (h : k ≠ name) :
    store_get (save_article name content ts store) k = store_get store k := by
  unfold save_article
  by_cases hs : (store_get store name).isSome
  · rw [if_pos hs]
    exact store_get_map_push_ne _ _ _ _ h
  · rw [if_neg hs]
    exact store_get_append_single_ne _ _ _ _ h

/-! ## Claim C1 -/

/-- C1: on a store where key `k` is absent, `save(k, c1)` then `save(k, c2)`
yields a history of exactly `[v1, v2]` with `v1.content = c1` and
`v2.content = c2`; `get_latest k` returns `v2`; the first save produces the
one-element history `[v1]` (each save grows k's history by exactly one
element, leaving the earlier version in place unaltered); and both saves
leave every other key's entry untouched. -/
theorem save_twice_fresh_key (s : WikiData) (k c1 c2 : String) (t1 t2 : Nat)
    (h : store_get s k = none) :
    store_get (save_article k c2 t2 (save_article k c1 t1 s)) k =
      some ⟨[⟨derive_title k, c1, t1⟩, ⟨derive_title k, c2, t2⟩]⟩ ∧
    get_latest (save_article k c2 t2 (save_article k c1 t1 s)) k =
      some ⟨derive_title k, c2, t2⟩ ∧
    store_get (save_article k c1 t1 s) k = some ⟨[⟨derive_title k, c1, t1⟩]⟩ ∧
    (∀ k', k' ≠ k →
      store_get (save_article k c1 t1 s) k' = store_get s k' ∧
      store_get (save_article k c2 t2 (save_article k c1 t1 s)) k' =
        store_get s k') := by
  have h1 : store_get (save_article k c1 t1 s) k =
      some ⟨[⟨derive_title k, c1, t1⟩]⟩ := by
    have hh := store_get_save_self k c1 t1 s
    rw [h] at hh
    simpa using hh
  have h2 : store_get (save_article k c2 t2 (save_article k c1 t1 s)) k =
      some ⟨[⟨derive_title k, c1, t1⟩, ⟨derive_title k, c2, t2⟩]⟩ := by
    have hh := store_get_save_self k c2 t2 (save_article k c1 t1 s)
    rw [h1] at hh
    simpa using hh
  refine ⟨h2, ?_, h1, ?_⟩
  · unfold get_latest
    rw [h2]
    rfl
  · intro k' hk'
    refine ⟨store_get_save_other _ _ _ _ _ hk', ?_⟩
    rw [store_get_save_other _ _ _ _ _ hk']
    exact store_get_save_other _ _ _ _ _ hk'

/-- Witness for C1 at a concrete fresh store and key. -/
theorem c1_witness :
    store_get (save_article "k" "c2" 2 (save_article "k" "c1" 1 [])) "k" =
      some ⟨[⟨derive_title "k", "c1", 1⟩, ⟨derive_title "k", "c2", 2⟩]⟩ ∧
    get_latest (save_article "k" "c2" 2 (save_article "k" "c1" 1 [])) "k" =
      some ⟨derive_title "k", "c2", 2⟩ :=
  ⟨(save_twice_fresh_key [] "k" "c1" "c2" 1 2 rfl).1,
    (save_twice_fresh_key [] "k" "c1" "c2" 1 2 rfl).2.1⟩

/-! ## Claim C6 -/

/-- C6: the stored display title is a function of the key alone and is the
same across repeated saves: after saving key `k` twice with different
contents and timestamps (over any prior store), the two appended versions
both carry the title `derive_title k` — only content, timestamp and history
length differ; and the derivation replaces underscores with spaces and
capitalizes each word, as on the sample key. -/
theorem title_derivation_key_only (s : WikiData) (k c1 c2 : String)
    (t1 t2 : Nat) :
    (∃ old : List Article,
      store_get (save_article k c2 t2 (save_article k c1 t1 s)) k =
        some ⟨old ++ [⟨derive_title k, c1, t1⟩, ⟨derive_title k, c2, t2⟩]⟩) ∧
    derive_title "art_deco_style" = "Art Deco Style" := by
  constructor
  · refine ⟨((store_get s k).map ArticleHistory.versions).getD [], ?_⟩
    have h1 := store_get_save_self k c1 t1 s
    have h2 := store_get_save_self k c2 t2 (save_article k c1 t1 s)
    rw [h1] at h2
    rw [h2]
    simp
  · decide

/-! ## Claim C9 -/

/-- C9: every history reachable in the store is non-empty — the seed
entries start with one version, and `save_article` pushes a version onto
the (possibly just created, empty) history within the same locked map
mutation — so the `versions.last().unwrap()` calls of `view_article`,
`edit_page` and `search_page` always find a last element. -/
theorem reachable_histories_nonempty (s : WikiData) (hs : Reachable s) :
    ∀ k h, store_get s k = some h →
      h.versions ≠ [] ∧ h.versions.getLast?.isSome := by
  induction hs with
  | seed t0 t1 =>
    intro k h hk
    unfold seed_store at hk
    rw [store_get_cons] at hk
    by_cases h1 : "main" = k
    · rw [if_pos h1] at hk
      cases hk
      exact ⟨by simp, by simp⟩
    · rw [if_neg h1] at hk
      rw [store_get_cons] at hk
      by_cases h2 : "bauhaus" = k
      · rw [if_pos h2] at hk
        cases hk
        exact ⟨by simp, by simp⟩
      · rw [if_neg h2] at hk
        exact absurd hk (by simp [store_get])
  | save s' k' c t _ ih =>
    intro k h hk
    by_cases hkk : k = k'
    · subst hkk
      rw [store_get_save_self] at hk
      cases hk
      refine ⟨by simp, ?_⟩
      rw [List.getLast?_concat]
      rfl
    · rw [store_get_save_other _ _ _ _ _ hkk] at hk
      exact ih k h hk

/-- Witness for C9 at the seed store and the "main" key. -/
theorem c9_witness :
    (⟨[⟨"Main Page", main_seed_content, 0⟩]⟩ : ArticleHistory).versions ≠ [] ∧
    (⟨[⟨"Main Page", main_seed_content, 0⟩]⟩ :
        ArticleHistory).versions.getLast?.isSome :=
  reachable_histories_nonempty (seed_store 0 0) (Reachable.seed 0 0) "main"
    ⟨[⟨"Main Page", main_seed_content, 0⟩]⟩ rfl

/-! ## Claim C10 -/

/-- When no pair satisfies the `k=v` match condition, the parameter scan
falls through to the empty string (`String::new()`, line 766). -/
theorem find_param_none (pairs : List (List Char)) (param : String)
    (h : ∀ p ∈ pairs, ¬((split_on_char '=' p).length = 2 ∧
        String.mk ((split_on_char '=' p).headD []) = param)) :
    find_param pairs param = "" := by
  induction pairs with
  | nil => rfl
  | cons p rest ih =>
    have hp := h p (List.mem_cons_self p rest)
    unfold find_param
    rw [if_neg hp]
    exact ih (fun q hq => h q (List.mem_cons_of_mem p hq))

/-- C10: a POST to `/save/{key}` whose body contains no pair that splits on
`'='` into exactly two tokens with first token `content` — including a
request with no `\r\n\r\n` separator, whose extracted body is empty —
still appends a version with empty content to the key's history and
responds with the 303 redirect to `/wiki/{key}`. -/
theorem post_save_without_content (path request : String) (store : WikiData)
    (ts : Nat) (hp : starts_with path "/save/" = true)
    (hc : ∀ p ∈ split_on_char '&' (extract_body request).toList,
      ¬((split_on_char '=' p).length = 2 ∧
        String.mk ((split_on_char '=' p).headD []) = "content")) :
    handle_post path request store ts =
      (redirect_response ("/wiki/" ++ String.mk (path.toList.drop 6)),
        save_article (String.mk (path.toList.drop 6)) "" ts store) ∧
    store_get (save_article (String.mk (path.toList.drop 6)) "" ts store)
        (String.mk (path.toList.drop 6)) =
      some ⟨((store_get store (String.mk (path.toList.drop 6))).map
          ArticleHistory.versions).getD [] ++
        [⟨derive_title (String.mk (path.toList.drop 6)), "", ts⟩]⟩ ∧
    (after_sub "\r\n\r\n".toList request.toList = none →
      extract_body request = "") := by
  have hfp : extract_form_param (extract_body request) "content" = "" :=
    find_param_none _ _ hc
  refine ⟨?_, store_get_save_self _ _ _ _, ?_⟩
  · unfold handle_post
    rw [if_pos hp]
    show (redirect_response ("/wiki/" ++ String.mk (path.toList.drop 6)),
        save_article (String.mk (path.toList.drop 6))
          (extract_form_param (extract_body request) "content") ts store) = _
    rw [hfp]
  · intro hnone
    unfold extract_body
    rw [hnone]

/-- Witness for C10: a POST to `/save/foo` whose request has no
`\r\n\r\n` separator (so the body is empty and carries no `content`
pair). -/
theorem c10_witness :
    handle_post "/save/foo" "POST /save/foo HTTP/1.1" [] 7 =
      (redirect_response ("/wiki/" ++ String.mk ("/save/foo".toList.drop 6)),
        save_article (String.mk ("/save/foo".toList.drop 6)) "" 7 []) ∧
    store_get (save_article (String.mk ("/save/foo".toList.drop 6)) "" 7 [])
        (String.mk ("/save/foo".toList.drop 6)) =
      some ⟨((store_get [] (String.mk ("/save/foo".toList.drop 6))).map
          ArticleHistory.versions).getD [] ++
        [⟨derive_title (String.mk ("/save/foo".toList.drop 6)), "", 7⟩]⟩ ∧
    (after_sub "\r\n\r\n".toList "POST /save/foo HTTP/1.1".toList = none →
      extract_body "POST /save/foo HTTP/1.1" = "") :=
  post_save_without_content "/save/foo" "POST /save/foo HTTP/1.1" [] 7
    (by decide) (by decide)

/-! ## Claim C2 -/

/-- C2 (amended): `urldecode` maps `'+'` to a space and `%XY` to the byte
whose hexadecimal value is `XY`, consuming two characters after `'%'`
unconditionally; a missing character defaults to `'0'` (so a truncated
escape behaves as if padded with `'0'`), and a pair that fails to parse as
hex contributes nothing to the output.  Consequently
`urldecode "a+b%20c%2"` is `"a b c "` — the trailing truncated escape
`%2` is padded to `%20` and decodes to a space, not dropped. -/
theorem urldecode_decoding_rules (X Y : Char) (r : List Char) :
    urldecode_list ('+' :: r) = ' ' :: urldecode_list r ∧
    (∀ b, from_str_radix2 X Y = some b →
      urldecode_list ('%' :: X :: Y :: r) = Char.ofNat b :: urldecode_list r) ∧
    (from_str_radix2 X Y = none →
      urldecode_list ('%' :: X :: Y :: r) = urldecode_list r) ∧
    urldecode_list ['%', X] = urldecode_list ['%', X, '0'] ∧
    urldecode_list ['%'] = urldecode_list ['%', '0', '0'] ∧
    urldecode "a+b%20c%2" = "a b c " := by
  refine ⟨rfl, ?_, ?_, ?_, ?_, by decide⟩
  · intro b hb
    show push_byte (from_str_radix2 X Y) (urldecode_list r) = _
    rw [hb]
    rfl
  · intro hb
    show push_byte (from_str_radix2 X Y) (urldecode_list r) = _
    rw [hb]
    rfl
  · rfl
  · rfl

/-- Witness for C2 on concrete escapes: a valid pair decodes to its byte, a
malformed pair is dropped. -/
theorem c2_witness :
    urldecode_list ['%', '2', '0'] = Char.ofNat 32 :: urldecode_list [] ∧
    urldecode_list ['%', 'z', 'z'] = urldecode_list [] :=
  ⟨(urldecode_decoding_rules '2' '0' []).2.1 32 (by decide),
    (urldecode_decoding_rules 'z' 'z' []).2.2.1 (by decide)⟩

/-- Counterexample for C2 as stated: the claim's example output `"a b c"`
is wrong — the truncated escape `%2` is not dropped; the missing digit
defaults to `'0'`, so `%2` decodes as `%20`, a trailing space. -/
theorem c2_counterexample :
    urldecode "a+b%20c%2" ≠ "a b c" ∧ urldecode "a+b%20c%2" = "a b c " := by
  constructor <;> decide

/-! ## Claim C3 -/

/-- Text containing no `'['` passes through `process_links` verbatim —
in particular it is not HTML-escaped there. -/
theorem pl_aux_no_bracket (l : List Char) (h : '[' ∉ l) : pl_aux l none = l := by
  induction l with
  | nil => rfl
  | cons c rest ih =>
    have hc : c ≠ '[' := fun e => h (e ▸ List.mem_cons_self c rest)
    have hrest : '[' ∉ rest := fun e => h (List.mem_cons_of_mem c e)
    have ih2 := ih hrest
    rw [pl_aux.eq_def]
    split <;> simp_all

/-- C3 (amended): only two places escape text in the renderer — the
remainder of a `"# "` heading line (`escape_html`, line 411, without link
resolution) and the display text of a `[[Name]]` cross-reference
(`escape_html(&link)`, line 446).  All other text — paragraph lines and
`"- "` list-item lines outside cross-references — is inserted verbatim:
`process_links` pushes ordinary characters unchanged, so the rendered line
`A&B<C>"D'E` appears raw in the output, with unescaped `<` and `>`. -/
theorem markup_escaping_scope (l : List Char) (h : '[' ∉ l) :
    pl_aux l none = l ∧
    markdown_to_html "A&B<C>\x22D\x27E" = "<p>A&B<C>\x22D\x27E</p>\n" ∧
    markdown_to_html "# A&B<C>" = "<h2>A&amp;B&lt;C&gt;</h2>\n" ∧
    process_links "[[A&B]]" =
      "<a href=\"/wiki/a&b\" class=\"wiki-link\">A&amp;B</a>" :=
  ⟨pl_aux_no_bracket l h, by decide, by decide, by decide⟩

/-- Witness for C3 at a concrete bracket-free line. -/
theorem c3_witness :
    pl_aux "A&B<C>\x22D\x27E".toList none = "A&B<C>\x22D\x27E".toList ∧
    markdown_to_html "A&B<C>\x22D\x27E" = "<p>A&B<C>\x22D\x27E</p>\n" ∧
    markdown_to_html "# A&B<C>" = "<h2>A&amp;B&lt;C&gt;</h2>\n" ∧
    process_links "[[A&B]]" =
      "<a href=\"/wiki/a&b\" class=\"wiki-link\">A&amp;B</a>" :=
  markup_escaping_scope "A&B<C>\x22D\x27E".toList (by decide)

/-- Counterexample for C3 as stated: rendering the paragraph line
`A&B<C>"D'E` does not escape it — the output contains the raw `<` and `>`
of the input, not `A&amp;B&lt;C&gt;&quot;D&#39;E`. -/
theorem c3_counterexample :
    markdown_to_html "A&B<C>\x22D\x27E" = "<p>A&B<C>\x22D\x27E</p>\n" ∧
    markdown_to_html "A&B<C>\x22D\x27E" ≠
      "<p>A&amp;B&lt;C&gt;&quot;D&#39;E</p>\n" := by
  constructor <;> decide

/-! ## Claim C4 -/

/-- C4 (amended): a line whose trimmed form starts with `"# "` closes any
open paragraph and emits a level-2 heading whose content is the remainder
of the trimmed line HTML-escaped only — `[[Name]]` cross-references are
NOT resolved in headings (`markdown_to_html` line 411 applies
`escape_html` but not `process_links`), so `[[Foo]]` stays literal. -/
theorem heading_line_rendering (html : String) (inP : Bool) (line : String)
    (h1 : rust_trim line ≠ "")
    (h2 : starts_with (rust_trim line) "# " = true) :
    md_step (html, inP) line =
      ((if inP then html ++ "</p>\n" else html) ++ "<h2>" ++
        escape_html (String.mk ((rust_trim line).toList.drop 2)) ++
        "</h2>\n", false) ∧
    markdown_to_html "# See [[Foo]]" = "<h2>See [[Foo]]</h2>\n" := by
  constructor
  · unfold md_step
    rw [if_neg h1, if_pos h2]
  · decide

/-- Witness for C4 at a concrete heading line with an open paragraph. -/
theorem c4_witness :
    md_step ("<p>x", true) "# Hi" =
      ((if true then "<p>x" ++ "</p>\n" else "<p>x") ++ "<h2>" ++
        escape_html (String.mk ((rust_trim "# Hi").toList.drop 2)) ++
        "</h2>\n", false) ∧
    markdown_to_html "# See [[Foo]]" = "<h2>See [[Foo]]</h2>\n" :=
  heading_line_rendering "<p>x" true "# Hi" (by decide) (by decide)

/-- Counterexample for C4 as stated: the heading remainder is escaped but
cross-references are not resolved into links — `[[Foo]]` appears literally
and no anchor tag is produced. -/
theorem c4_counterexample :
    markdown_to_html "# See [[Foo]]" = "<h2>See [[Foo]]</h2>\n" ∧
    markdown_to_html "# See [[Foo]]" ≠
      "<h2>See <a href=\"/wiki/foo\" class=\"wiki-link\">Foo</a></h2>\n" := by
  constructor <;> decide

/-! ## Claim C5 -/

/-- C5 (amended): the request-line and routing error behaviour of
`process_request`.  An empty request or a request line with fewer than two
whitespace-separated tokens yields 400; a method other than `GET` or
`POST` yields 405; a GET whose path matches no route yields 404; but a
POST to a path outside the `/save/` family — for example `POST
/wiki/{key}` — yields 404 Not Found, NOT 405 Method Not Allowed (the
`handle_post` fall-through, line 140).  Every such error produces the
complete, well-formed `http_response` string and the handler returns
normally. -/
theorem router_error_responses (request : String) (store : WikiData)
    (ts : Nat) :
    (rust_lines request = [] ∨
        (split_whitespace ((rust_lines request).headD "")).length < 2 →
      (process_request request store ts).1 = http_response 400 "Bad Request") ∧
    (rust_lines request ≠ [] →
      ¬(split_whitespace ((rust_lines request).headD "")).length < 2 →
      ((split_whitespace ((rust_lines request).headD "")).headD "" ≠ "GET" →
        (split_whitespace ((rust_lines request).headD "")).headD "" ≠ "POST" →
        (process_request request store ts).1 =
          http_response 405 "Method Not Allowed") ∧
      ((split_whitespace ((rust_lines request).headD "")).headD "" = "POST" →
        starts_with ((split_whitespace ((rust_lines request).headD "")).getD 1 "")
            "/save/" = false →
        (process_request request store ts).1 = http_response 404 "Not Found") ∧
      ((split_whitespace ((rust_lines request).headD "")).headD "" = "GET" →
        (split_whitespace ((rust_lines request).headD "")).getD 1 "" ≠ "/" →
        starts_with ((split_whitespace ((rust_lines request).headD "")).getD 1 "")
            "/wiki/" = false →
        starts_with ((split_whitespace ((rust_lines request).headD "")).getD 1 "")
            "/edit/" = false →
        starts_with ((split_whitespace ((rust_lines request).headD "")).getD 1 "")
            "/history/" = false →
        starts_with ((split_whitespace ((rust_lines request).headD "")).getD 1 "")
            "/search" = false →
        (split_whitespace ((rust_lines request).headD "")).getD 1 "" ≠
          "/styles.css" →
        (process_request request store ts).1 = http_response 404 "Not Found")) := by
  constructor
  · intro h
    unfold process_request
    rcases h with h | h
    · rw [if_pos h]
    · by_cases he : rust_lines request = []
      · rw [if_pos he]
      · rw [if_neg he, if_pos h]
  · intro he hlen
    unfold process_request
    rw [if_neg he, if_neg hlen]
    refine ⟨?_, ?_, ?_⟩
    · intro hG hP
      rw [if_neg hG, if_neg hP]
    · intro hP hsave
      rw [if_neg (hP ▸ (by decide : ("POST" : String) ≠ "GET")), if_pos hP]
      unfold handle_post
      rw [if_neg (by rw [hsave]; exact Bool.false_ne_true)]
    · intro hG hroot hw hed hh hsearch hcss
      rw [if_pos hG]
      show handle_get _ store = _
      unfold handle_get
      rw [if_neg hroot]
      unfold handle_get_routed
      rw [if_neg (by rw [hw]; exact Bool.false_ne_true),
        if_neg (by rw [hed]; exact Bool.false_ne_true),
        if_neg (by rw [hh]; exact Bool.false_ne_true),
        if_neg (by rw [hsearch]; exact Bool.false_ne_true),
        if_neg hcss]

/-- Witness for C5 on concrete requests: unsupported method, unrouted GET
path, POST outside /save/, and a one-token request line. -/
theorem c5_witness :
    (process_request "PUT /wiki/main HTTP/1.1\r\n\r\n" [] 0).1 =
      http_response 405 "Method Not Allowed" ∧
    (process_request "GET /nope HTTP/1.1\r\n\r\n" [] 0).1 =
      http_response 404 "Not Found" ∧
    (process_request "POST /wiki/main HTTP/1.1\r\n\r\n" [] 0).1 =
      http_response 404 "Not Found" ∧
    (process_request "GET" [] 0).1 = http_response 400 "Bad Request" :=
  ⟨((router_error_responses "PUT /wiki/main HTTP/1.1\r\n\r\n" [] 0).2
      (by decide) (by decide)).1 (by decide) (by decide),
    ((router_error_responses "GET /nope HTTP/1.1\r\n\r\n" [] 0).2
      (by decide) (by decide)).2.2 (by decide) (by decide) (by decide)
      (by decide) (by decide) (by decide) (by decide),
    ((router_error_responses "POST /wiki/main HTTP/1.1\r\n\r\n" [] 0).2
      (by decide) (by decide)).2.1 (by decide) (by decide),
    (router_error_responses "GET" [] 0).1 (by decide)⟩

/-- Counterexample for C5 as stated: `POST /wiki/main` is a request whose
method is not the one the `/wiki/` path family supports, yet the response
is 404 Not Found, not the claimed 405 Method Not Allowed. -/
theorem c5_counterexample :
    (process_request "POST /wiki/main HTTP/1.1\r\n\r\n" [] 0).1 =
      http_response 404 "Not Found" ∧
    (process_request "POST /wiki/main HTTP/1.1\r\n\r\n" [] 0).1 ≠
      http_response 405 "Method Not Allowed" := by
  constructor <;> decide

/-! ## Claim C7 -/

/-- Folding string concatenation over a list is concatenation of the
mapped list. -/
theorem foldl_append_eq_concat {α : Type} (f : α → String) :
    ∀ (l : List α) (init : String),
      l.foldl (fun acc x => acc ++ f x) init = init ++ str_concat (l.map f) := by
  intro l
  induction l with
  | nil =>
    intro init
    simp [str_concat]
  | cons x xs ih =>
    intro init
    rw [List.foldl_cons, ih, List.map_cons, str_concat, String.append_assoc]

/-- C7: for a stored key, `GET /history/{key}` renders the versions
newest-first — the rendered blocks are the reverse of the oldest-first
enumeration — each block carrying the 1-based version index counted from
the oldest version (`i + 1`), the formatted date, and the escaped first
100 characters of that version's content; for an absent key it responds
with the redirect to `/wiki/{key}`. -/
theorem history_rendering (store : WikiData) (name : String) :
    (∀ h, store_get store name = some h →
      history_page name store =
        html_response (history_page_tpl name (versions_html h.versions)) ∧
      versions_html h.versions =
        str_concat ((h.versions.enum.map (fun p =>
          history_item_html (p.1 + 1) (format_timestamp p.2.timestamp)
            (escape_html (String.mk (p.2.content.toList.take 100))))).reverse)) ∧
    (store_get store name = none →
      history_page name store = redirect_response ("/wiki/" ++ name)) := by
  constructor
  · intro h hh
    constructor
    · unfold history_page
      rw [hh]
    · unfold versions_html
      rw [foldl_append_eq_concat, List.map_reverse]
      simp
  · intro h
    unfold history_page
    rw [h]

/-- Witness for C7: redirect on an absent key, and the rendered block list
for a concrete two-version history. -/
theorem c7_witness :
    history_page "zz" [] = redirect_response ("/wiki/" ++ "zz") ∧
    versions_html [⟨"T", "a", 0⟩, ⟨"T", "b", 86400⟩] =
      str_concat ((([⟨"T", "a", 0⟩, ⟨"T", "b", 86400⟩] :
          List Article).enum.map (fun p =>
        history_item_html (p.1 + 1) (format_timestamp p.2.timestamp)
          (escape_html (String.mk (p.2.content.toList.take 100))))).reverse) :=
  ⟨(history_rendering [] "zz").2 rfl,
    ((history_rendering [("h", ⟨[⟨"T", "a", 0⟩, ⟨"T", "b", 86400⟩]⟩)] "h").1
      ⟨[⟨"T", "a", 0⟩, ⟨"T", "b", 86400⟩]⟩ rfl).2⟩

/-! ## Claim C8 -/

/-- C8 (amended): in `view_article` and `search_page` the mutex guard is
held across markup rendering and response-string construction (the guard's
lexical scope is the whole handler and the rendered data is borrowed from
the guarded map); the guard is released before the response bytes are
written to the socket, which happens in `handle_client` after
`process_request` returns. -/
theorem lock_scope_ordering :
    view_article_trace.indexOf StoreEvent.render <
      view_article_trace.indexOf StoreEvent.lockRelease ∧
    search_page_trace.indexOf StoreEvent.render <
      search_page_trace.indexOf StoreEvent.lockRelease ∧
    handle_client_view_trace.indexOf StoreEvent.lockRelease <
      handle_client_view_trace.indexOf StoreEvent.writeBytes ∧
    handle_client_search_trace.indexOf StoreEvent.lockRelease <
      handle_client_search_trace.indexOf StoreEvent.writeBytes := by
  decide

/-- Counterexample for C8 as stated: in `view_article`'s event trace the
lock release does not precede rendering — rendering happens strictly
inside the guarded region. -/
theorem c8_counterexample :
    ¬view_article_trace.indexOf StoreEvent.lockRelease <
        view_article_trace.indexOf StoreEvent.render ∧
    view_article_trace.indexOf StoreEvent.render <
      view_article_trace.indexOf StoreEvent.lockRelease := by
  decide
